import Mathlib

/-!
Verification of the data-preparation and training-orchestration pipeline of
`src/app.py` (a BYOL-style self-supervised training script): patch tiling,
preprocessing orchestration, EMA target updates, checkpoint save/resume, and
the training-loop epoch schedule, embedded shallowly in Lean.
-/

namespace ResnetTraining

/-- Number of elements of Python `range(0, stop, step)` for `step > 0`:
`max 0 ⌈stop/step⌉`, written without division on negative numbers. -/
def pyRangeLen (stop : Int) (step : Nat) : Nat :=
  if stop ≤ 0 then 0 else (stop - 1).toNat / step + 1

/-- Python `range(0, stop, step)` as a list of naturals (for `step > 0`). -/
def pyRange (stop : Int) (step : Nat) : List Nat :=
  (List.range (pyRangeLen stop step)).map (· * step)

/-- The grid of top-left corners `(x, y)` produced by the tiling loops of
`process_blob` (src/app.py lines 35-36):
`for y in range(0, height - patch_size + 1, patch_size)` outer,
`for x in range(0, width - patch_size + 1, patch_size)` inner, so the
flattened order (which is the order `patch_num` is assigned in) is row-major. -/
def patchGrid (width height patch_size : Nat) : List (Nat × Nat) :=
  (pyRange ((height : Int) - patch_size + 1) patch_size).flatMap (fun y =>
    (pyRange ((width : Int) - patch_size + 1) patch_size).map (fun x => (x, y)))

/-- The crop boxes `(x, y, x + patch_size, y + patch_size)` of
`process_blob` (src/app.py line 37), in `patch_num` order. -/
def patchBoxes (width height patch_size : Nat) : List (Nat × Nat × Nat × Nat) :=
  (patchGrid width height patch_size).map
    (fun q => (q.1, q.2, q.1 + patch_size, q.2 + patch_size))

theorem pyRangeLen_tile (L p : Nat) (hp : 0 < p) :
    pyRangeLen ((L : Int) - p + 1) p = L / p := by
  unfold pyRangeLen
  by_cases h : (L : Int) - p + 1 ≤ 0
  · rw [if_pos h]
    have hLp : L < p := by omega
    rw [Nat.div_eq_of_lt hLp]
  · rw [if_neg h]
    have hpL : p ≤ L := by omega
    have h1 : ((L : Int) - p + 1 - 1).toNat = L - p := by omega
    rw [h1]
    exact (Nat.div_eq_sub_div hp hpL).symm

theorem flatMap_range_map {α : Type} (a b : Nat) (f : Nat → Nat → α) :
    (List.range b).flatMap (fun j => (List.range a).map (f j)) =
      (List.range (b * a)).map (fun k => f (k / a) (k % a)) := by
  induction b with
  | zero => simp
  | succ b ih =>
    rw [List.range_succ, List.flatMap_append, ih, Nat.succ_mul, List.range_add,
      List.map_append, List.map_map]
    congr 1
    simp only [List.flatMap_cons, List.flatMap_nil, List.append_nil]
    apply List.map_congr_left
    intro i hi
    have hia : i < a := List.mem_range.mp hi
    have ha : 0 < a := Nat.lt_of_le_of_lt (Nat.zero_le i) hia
    have hd : (b * a + i) / a = b := by
      rw [Nat.mul_comm b a, Nat.add_comm, Nat.add_mul_div_left i b ha,
        Nat.div_eq_of_lt hia, Nat.zero_add]
    have hm : (b * a + i) % a = i := by
      rw [Nat.mul_comm b a, Nat.add_comm, Nat.add_mul_mod_self_left,
        Nat.mod_eq_of_lt hia]
    simp only [Function.comp_apply, hd, hm]

theorem patchGrid_closed_form (W H p : Nat) (hp : 0 < p) :
    patchGrid W H p = (List.range (H / p * (W / p))).map
      (fun k => ((k % (W / p)) * p, (k / (W / p)) * p)) := by
  unfold patchGrid pyRange
  rw [pyRangeLen_tile H p hp, pyRangeLen_tile W p hp, List.flatMap_map]
  simp only [List.map_map]
  exact flatMap_range_map (W / p) (H / p) (fun j i => (i * p, j * p))

theorem tile_bound (L p i : Nat) (h : i < L / p) : i * p + p ≤ L :=
  calc i * p + p = (i + 1) * p := (Nat.succ_mul i p).symm
    _ ≤ (L / p) * p := Nat.mul_le_mul_right p (Nat.succ_le_of_lt h)
    _ ≤ L := Nat.div_mul_le_self L p

/-- C1: for every image of dimensions `(W, H)` and every positive
`patch_size`, `process_blob` produces exactly `⌊W/patch_size⌋ * ⌊H/patch_size⌋`
crop boxes, each box lies within the source image bounds, and the box at
patch index `k` (indices assigned in row-major scan order starting at 0) is
the grid-aligned square at column `k % ⌊W/patch_size⌋` and row
`k / ⌊W/patch_size⌋`; partial edge strips shorter than `patch_size` yield no
box. -/
theorem patch_tiling_rowmajor (W H p : Nat) (hp : 0 < p) :
    (patchBoxes W H p).length = (W / p) * (H / p) ∧
    (∀ b ∈ patchBoxes W H p, b.2.2.1 ≤ W ∧ b.2.2.2 ≤ H) ∧
    (∀ k (hk : k < (patchBoxes W H p).length),
      (patchBoxes W H p).get ⟨k, hk⟩ =
        ((k % (W / p)) * p, (k / (W / p)) * p,
         (k % (W / p)) * p + p, (k / (W / p)) * p + p)) := by
  have hgrid := patchGrid_closed_form W H p hp
  refine ⟨?_, ?_, ?_⟩
  · simp [patchBoxes, hgrid, Nat.mul_comm]
  · intro b hb
    simp only [patchBoxes, hgrid, List.map_map, List.mem_map, List.mem_range] at hb
    obtain ⟨k, hk, rfl⟩ := hb
    have hcw : 0 < W / p := by
      rcases Nat.eq_zero_or_pos (W / p) with h0 | h0
      · rw [h0, Nat.mul_zero] at hk; exact absurd hk (Nat.not_lt_zero k)
      · exact h0
    have hx : k % (W / p) < W / p := Nat.mod_lt k hcw
    have hy : k / (W / p) < H / p := by
      rw [Nat.div_lt_iff_lt_mul hcw]; exact hk
    exact ⟨tile_bound W p _ hx, tile_bound H p _ hy⟩
  · intro k hk
    simp [patchBoxes, hgrid, List.get_eq_getElem]

/-- Witness for C1 at the spec scenario: a 448 x 448 image at patch size 224
yields exactly 4 in-bounds patches, indexed 0-3 in row-major order. -/
theorem patch_tiling_rowmajor_witness :
    0 < 224 ∧
    ((patchBoxes 448 448 224).length = (448 / 224) * (448 / 224) ∧
    (∀ b ∈ patchBoxes 448 448 224, b.2.2.1 ≤ 448 ∧ b.2.2.2 ≤ 448) ∧
    (∀ k (hk : k < (patchBoxes 448 448 224).length),
      (patchBoxes 448 448 224).get ⟨k, hk⟩ =
        ((k % (448 / 224)) * 224, (k / (448 / 224)) * 224,
         (k % (448 / 224)) * 224 + 224, (k / (448 / 224)) * 224 + 224))) :=
  ⟨by decide, patch_tiling_rowmajor 448 448 224 (by decide)⟩

/-- The full training state of `main`: the 0-based index of the last completed
epoch, the parameter vectors of the online network, target network and
prediction head, the optimizer state, and the last mean epoch loss.
Parameter tensors are modelled as flat lists of rationals. -/
structure TrainingState where
  epoch : Nat
  onlineParams : List ℚ
  targetParams : List ℚ
  predictionHeadParams : List ℚ
  optimizerState : List ℚ
  lastLoss : ℚ
  deriving DecidableEq

/-- The checkpoint dictionary written by `torch.save` in `main`
(src/app.py lines 280-287): keys `epoch`, `online_network_state_dict`,
`target_network_state_dict`, `prediction_head_state_dict`,
`optimizer_state_dict`, `loss`. -/
structure Checkpoint where
  epoch : Nat
  online_network_state_dict : List ℚ
  target_network_state_dict : List ℚ
  prediction_head_state_dict : List ℚ
  optimizer_state_dict : List ℚ
  loss : ℚ
  deriving DecidableEq

/-- The checkpoint `main` saves after completing 0-based epoch `epoch`
(src/app.py lines 280-287): the stored `epoch` field is the loop variable
itself, and `loss` is the epoch's average loss. -/
def saveCheckpoint (s : TrainingState) : Checkpoint :=
  ⟨s.epoch, s.onlineParams, s.targetParams, s.predictionHeadParams,
   s.optimizerState, s.lastLoss⟩

/-- The state-restoring part of the resume path (src/app.py lines 226-230):
each `load_state_dict` copies the stored tensors into the freshly initialized
models, and `start_epoch = checkpoint['epoch'] + 1`. The stored `loss` value
is not read back, so `lastLoss` keeps its pre-resume value. Returns the
reconstructed state together with `start_epoch`. -/
def loadCheckpoint (c : Checkpoint) (init : TrainingState) : TrainingState × Nat :=
  (⟨c.epoch, c.online_network_state_dict, c.target_network_state_dict,
    c.prediction_head_state_dict, c.optimizer_state_dict, init.lastLoss⟩,
   c.epoch + 1)

/-- `start_epoch` after a successful resume (src/app.py line 230). -/
def resumeStartEpoch (c : Checkpoint) : Nat :=
  c.epoch + 1

/-- The local filename under which the checkpoint written after completing
0-based epoch `epoch` is saved and uploaded (src/app.py lines 278 and 294):
`checkpoint_epoch_{epoch+1}.pth`. -/
def checkpointFileName (epoch : Nat) : String :=
  "checkpoint_epoch_" ++ toString (epoch + 1) ++ ".pth"

/-- The epoch indices executed by the training loop
`for epoch in range(start_epoch, NUM_EPOCHS)` (src/app.py line 244). -/
def trainingEpochs (start_epoch NUM_EPOCHS : Nat) : List Nat :=
  List.range' start_epoch (NUM_EPOCHS - start_epoch)

/-- C2: checkpoint round-trip. Loading a checkpoint saved from a training
state reconstructs the identical epoch index and bit-equivalent parameter
values for the online network, target network, prediction head and
optimizer. -/
theorem checkpoint_roundtrip (s init : TrainingState) :
    ((loadCheckpoint (saveCheckpoint s) init).1.epoch = s.epoch) ∧
    ((loadCheckpoint (saveCheckpoint s) init).1.onlineParams = s.onlineParams) ∧
    ((loadCheckpoint (saveCheckpoint s) init).1.targetParams = s.targetParams) ∧
    ((loadCheckpoint (saveCheckpoint s) init).1.predictionHeadParams
      = s.predictionHeadParams) ∧
    ((loadCheckpoint (saveCheckpoint s) init).1.optimizerState
      = s.optimizerState) :=
  ⟨rfl, rfl, rfl, rfl, rfl⟩

/-- C3: a checkpoint storing epoch field `e` makes the training loop start at
`e + 1`; the loop then executes exactly the epochs `m` with
`e + 1 ≤ m < NUM_EPOCHS`, in particular never epoch `e` itself. -/
theorem resume_epoch_schedule (c : Checkpoint) (NUM_EPOCHS : Nat) :
    resumeStartEpoch c = c.epoch + 1 ∧
    (∀ m, m ∈ trainingEpochs (resumeStartEpoch c) NUM_EPOCHS ↔
      (c.epoch + 1 ≤ m ∧ m < NUM_EPOCHS)) ∧
    c.epoch ∉ trainingEpochs (resumeStartEpoch c) NUM_EPOCHS := by
  have hmem : ∀ m, m ∈ trainingEpochs (resumeStartEpoch c) NUM_EPOCHS ↔
      (c.epoch + 1 ≤ m ∧ m < NUM_EPOCHS) := by
    intro m
    rw [trainingEpochs, List.mem_range'_1, resumeStartEpoch]
    omega
  refine ⟨rfl, hmem, ?_⟩
  intro hc
  have := (hmem c.epoch).mp hc
  omega

/-- C10: the checkpoint saved after completing 0-based epoch `e` is written
under the name `checkpoint_epoch_{e+1}.pth` while its stored epoch field is
`e`; resuming from it therefore starts training at epoch `e + 1`, which is
exactly the number in the file name. -/
theorem checkpoint_name_offset (s : TrainingState) :
    (saveCheckpoint s).epoch = s.epoch ∧
    resumeStartEpoch (saveCheckpoint s) = s.epoch + 1 ∧
    checkpointFileName s.epoch =
      "checkpoint_epoch_" ++ toString (resumeStartEpoch (saveCheckpoint s))
        ++ ".pth" :=
  ⟨rfl, rfl, rfl⟩

/-- Outcome of `main` after the checkpoint-loading block: either the run
aborts (the `except` branch at src/app.py lines 234-238 prints a FATAL
message and returns from `main`), or it proceeds to run the listed epochs. -/
inductive RunOutcome where
  | aborted (msg : String)
  | completed (epochsRun : List Nat)
  deriving DecidableEq

/-- The epochs actually executed under an outcome (none when aborted). -/
def epochsRun : RunOutcome → List Nat
  | RunOutcome.aborted _ => []
  | RunOutcome.completed es => es

/-- The resume block of `main` (src/app.py lines 210-244): the whole
`try` body — download, `torch.load`, the four `load_state_dict` calls and
the `start_epoch` assignment — is guarded by one `except Exception` that
returns from `main`; only on success does control reach the training loop
`for epoch in range(start_epoch, NUM_EPOCHS)`. `fetchResult` stands for the
combined download-and-deserialize step. -/
def mainResumePhase (fetchResult : Except String Checkpoint)
    (init : TrainingState) (NUM_EPOCHS : Nat) : RunOutcome :=
  match fetchResult with
  | Except.error e =>
      RunOutcome.aborted ("FATAL: Failed to load checkpoint from Azure. Error: " ++ e)
  | Except.ok c =>
      RunOutcome.completed (trainingEpochs (loadCheckpoint c init).2 NUM_EPOCHS)

/-- The model/optimizer state after the resume block: untouched when the
fetch or deserialize failed (none of the `load_state_dict` calls ran),
the loaded state on success. -/
def stateAfterResume (fetchResult : Except String Checkpoint)
    (init : TrainingState) : TrainingState :=
  match fetchResult with
  | Except.error _ => init
  | Except.ok c => (loadCheckpoint c init).1

/-- C4: if fetching or deserializing the resume checkpoint fails, the run
aborts with a FATAL message before any training epoch executes, the
initialized state is left unmutated, and there is no train-from-scratch
fallback (the outcome is an abort, never a `completed` run). -/
theorem resume_failure_aborts (e : String) (init : TrainingState)
    (NUM_EPOCHS : Nat) :
    mainResumePhase (Except.error e) init NUM_EPOCHS =
      RunOutcome.aborted ("FATAL: Failed to load checkpoint from Azure. Error: " ++ e) ∧
    epochsRun (mainResumePhase (Except.error e) init NUM_EPOCHS) = [] ∧
    stateAfterResume (Except.error e) init = init ∧
    (∀ es, mainResumePhase (Except.error e) init NUM_EPOCHS ≠
      RunOutcome.completed es) := by
  refine ⟨rfl, rfl, rfl, ?_⟩
  intro es h
  exact RunOutcome.noConfusion h

/-- `update_moving_average` (src/app.py lines 113-120): for every
corresponding parameter pair of the target (EMA) model and the online model,
`target_param.data = decay * target_param.data + (1 - decay) * online_param.data`.
The Python `zip` over the two parameter sequences is `List.zipWith`. -/
def update_moving_average (decay : ℚ) (target online : List ℚ) : List ℚ :=
  List.zipWith
    (fun target_param online_param =>
      decay * target_param + (1 - decay) * online_param)
    target online

/-- `n` successive EMA updates against a fixed online parameter vector, as
performed once per optimization step by the training loop (src/app.py
line 271). -/
def emaIterate (decay : ℚ) (online : List ℚ) : Nat → List ℚ → List ℚ
  | 0, target => target
  | n + 1, target => emaIterate decay online n (update_moving_average decay target online)

theorem getD_zipWith (f : ℚ → ℚ → ℚ) (a b : List ℚ) (i : Nat)
    (ha : i < a.length) (hb : i < b.length) :
    (List.zipWith f a b).getD i 0 = f (a.getD i 0) (b.getD i 0) := by
  have hi : i < (List.zipWith f a b).length := by
    rw [List.length_zipWith]; omega
  rw [List.getD_eq_getElem?_getD, List.getElem?_eq_getElem hi,
    List.getD_eq_getElem?_getD, List.getElem?_eq_getElem ha,
    List.getD_eq_getElem?_getD, List.getElem?_eq_getElem hb]
  simp [List.getElem_zipWith]

theorem ema_length (decay : ℚ) (target online : List ℚ)
    (h : target.length = online.length) :
    (update_moving_average decay target online).length = target.length := by
  rw [update_moving_average, List.length_zipWith]
  omega

theorem ema_decay_one (target online : List ℚ)
    (h : target.length = online.length) :
    update_moving_average 1 target online = target := by
  induction target generalizing online with
  | nil => rfl
  | cons a t ih =>
    cases online with
    | nil => exact absurd h (by simp)
    | cons b o =>
      simp only [update_moving_average, List.zipWith_cons_cons] at *
      rw [List.cons_eq_cons]
      constructor
      · ring
      · exact ih o (by simpa using h)

theorem ema_iterate_length (decay : ℚ) (online : List ℚ) (n : Nat)
    (target : List ℚ) (h : target.length = online.length) :
    (emaIterate decay online n target).length = target.length := by
  induction n generalizing target with
  | zero => rfl
  | succ n ih =>
    rw [emaIterate, ih _ (by rw [ema_length decay target online h]; exact h),
      ema_length decay target online h]

theorem ema_iterate_closed_form (decay : ℚ) (online : List ℚ) (n : Nat)
    (target : List ℚ) (h : target.length = online.length) (i : Nat)
    (hi : i < target.length) :
    (emaIterate decay online n target).getD i 0 - online.getD i 0
      = decay ^ n * (target.getD i 0 - online.getD i 0) := by
  induction n generalizing target with
  | zero =>
    rw [emaIterate, pow_zero, one_mul]
  | succ n ih =>
    have hlen := ema_length decay target online h
    have step := ih (update_moving_average decay target online)
      (by rw [hlen]; exact h) (by rw [hlen]; exact hi)
    rw [emaIterate, step, update_moving_average,
      getD_zipWith _ target online i hi (h ▸ hi)]
    ring

/-- C5: the EMA update replaces each target parameter by
`decay * target + (1 - decay) * online` pairwise; under `decay = 1` it is
idempotent (the target never changes), and repeated updates under
`0 ≤ decay < 1` move the target toward the online parameters: the pointwise
gap after `n` updates is `decay ^ n` times the initial gap, so each further
update shrinks its absolute value by the factor `decay`. -/
theorem ema_update_spec (decay : ℚ) (target online : List ℚ)
    (h : target.length = online.length) :
    (update_moving_average decay target online).length = target.length ∧
    (∀ i, i < target.length →
      (update_moving_average decay target online).getD i 0
        = decay * target.getD i 0 + (1 - decay) * online.getD i 0) ∧
    update_moving_average 1 target online = target ∧
    (∀ n i, i < target.length →
      (emaIterate decay online n target).getD i 0 - online.getD i 0
        = decay ^ n * (target.getD i 0 - online.getD i 0)) ∧
    (0 ≤ decay → decay < 1 → ∀ n i, i < target.length →
      |(emaIterate decay online (n + 1) target).getD i 0 - online.getD i 0|
        ≤ decay * |(emaIterate decay online n target).getD i 0 - online.getD i 0|) := by
  refine ⟨ema_length decay target online h, ?_, ema_decay_one target online h,
    fun n i hi => ema_iterate_closed_form decay online n target h i hi, ?_⟩
  · intro i hi
    exact getD_zipWith _ target online i hi (h ▸ hi)
  · intro hd0 _ n i hi
    rw [ema_iterate_closed_form decay online (n + 1) target h i hi,
      ema_iterate_closed_form decay online n target h i hi,
      abs_mul, abs_mul, pow_succ, mul_comm (decay ^ n) decay, abs_mul,
      abs_of_nonneg hd0, mul_assoc]

/-- Witness for C5 at `decay = 1/2`, `target = [4]`, `online = [0]`. -/
theorem ema_update_spec_witness :
    ([(4 : ℚ)].length = [(0 : ℚ)].length) ∧
    ((update_moving_average (1/2) [(4 : ℚ)] [(0 : ℚ)]).length = [(4 : ℚ)].length ∧
    (∀ i, i < [(4 : ℚ)].length →
      (update_moving_average (1/2) [(4 : ℚ)] [(0 : ℚ)]).getD i 0
        = (1/2) * [(4 : ℚ)].getD i 0 + (1 - 1/2) * [(0 : ℚ)].getD i 0) ∧
    update_moving_average 1 [(4 : ℚ)] [(0 : ℚ)] = [(4 : ℚ)] ∧
    (∀ n i, i < [(4 : ℚ)].length →
      (emaIterate (1/2) [(0 : ℚ)] n [(4 : ℚ)]).getD i 0 - [(0 : ℚ)].getD i 0
        = (1/2 : ℚ) ^ n * ([(4 : ℚ)].getD i 0 - [(0 : ℚ)].getD i 0)) ∧
    ((0 : ℚ) ≤ 1/2 → (1/2 : ℚ) < 1 → ∀ n i, i < [(4 : ℚ)].length →
      |(emaIterate (1/2) [(0 : ℚ)] (n + 1) [(4 : ℚ)]).getD i 0 - [(0 : ℚ)].getD i 0|
        ≤ (1/2) * |(emaIterate (1/2) [(0 : ℚ)] n [(4 : ℚ)]).getD i 0
            - [(0 : ℚ)].getD i 0|)) :=
  ⟨rfl, ema_update_spec (1/2) [(4 : ℚ)] [(0 : ℚ)] rfl⟩

/-- The image-extension test of the orchestrator (src/app.py line 81):
`blob.name.lower().endswith(('jpg', 'jpeg', 'png'))`. Blob names are
modelled as lists of characters; `lower()` is `Char.toLower` mapped over the
name and the tuple form of `endswith` is a disjunction of suffix tests. -/
def hasImageExt (blob_name : List Char) : Bool :=
  let lowered := blob_name.map Char.toLower
  "jpg".toList.isSuffixOf lowered ||
  "jpeg".toList.isSuffixOf lowered ||
  "png".toList.isSuffixOf lowered

/-- Observable effects of one `preprocess_and_save_locally` run: whether the
source container was listed, whether the local cache directory was created,
and which blobs were submitted to the worker pool. -/
structure PreprocessTrace where
  listedRemote : Bool
  createdCacheDir : Bool
  submittedTasks : List (List Char)
  deriving DecidableEq

/-- `preprocess_and_save_locally` (src/app.py lines 72-92): if the local
cache directory exists and holds at least one entry, return immediately;
otherwise create the directory, list the container, keep only blobs passing
`hasImageExt`, and (when any remain) submit one task per kept blob to the
pool. `cacheDirExists` and `cacheEntryCount` describe the local cache
directory; `container_blobs` is what `list_blobs()` would enumerate. -/
def preprocess_and_save_locally (cacheDirExists : Bool) (cacheEntryCount : Nat)
    (container_blobs : List (List Char)) : PreprocessTrace :=
  if cacheDirExists = true ∧ 0 < cacheEntryCount then
    ⟨false, false, []⟩
  else
    ⟨true, true, container_blobs.filter hasImageExt⟩

/-- C6: whenever the local cache directory exists with at least one entry,
the orchestrator returns immediately: the remote container is never listed
and no extraction task is submitted, whatever the container holds. -/
theorem cache_hit_short_circuits (cacheEntryCount : Nat)
    (container_blobs : List (List Char)) (h : 0 < cacheEntryCount) :
    (preprocess_and_save_locally true cacheEntryCount container_blobs).listedRemote
      = false ∧
    (preprocess_and_save_locally true cacheEntryCount container_blobs).createdCacheDir
      = false ∧
    (preprocess_and_save_locally true cacheEntryCount container_blobs).submittedTasks
      = [] := by
  rw [preprocess_and_save_locally, if_pos ⟨rfl, h⟩]
  exact ⟨rfl, rfl, rfl⟩

/-- Witness for C6: a cache directory pre-populated with 10 entries makes
the orchestrator skip listing and submit nothing. -/
theorem cache_hit_short_circuits_witness :
    0 < 10 ∧
    ((preprocess_and_save_locally true 10 ["x.jpg".toList]).listedRemote = false ∧
    (preprocess_and_save_locally true 10 ["x.jpg".toList]).createdCacheDir = false ∧
    (preprocess_and_save_locally true 10 ["x.jpg".toList]).submittedTasks = []) :=
  ⟨by decide, cache_hit_short_circuits 10 ["x.jpg".toList] (by decide)⟩

/-- C7: on a cache miss the submitted tasks are exactly the enumerated blobs
whose name passes the case-insensitive jpg/jpeg/png extension test; a blob
failing the test is never submitted. -/
theorem cache_miss_filters_images (cacheDirExists : Bool)
    (cacheEntryCount : Nat) (container_blobs : List (List Char))
    (h : ¬(cacheDirExists = true ∧ 0 < cacheEntryCount)) :
    (preprocess_and_save_locally cacheDirExists cacheEntryCount
        container_blobs).submittedTasks
      = container_blobs.filter hasImageExt ∧
    (∀ b ∈ (preprocess_and_save_locally cacheDirExists cacheEntryCount
        container_blobs).submittedTasks, b ∈ container_blobs ∧ hasImageExt b = true) ∧
    (∀ b ∈ container_blobs, hasImageExt b = false →
      b ∉ (preprocess_and_save_locally cacheDirExists cacheEntryCount
        container_blobs).submittedTasks) := by
  rw [preprocess_and_save_locally, if_neg h]
  refine ⟨rfl, ?_, ?_⟩
  · intro b hb
    exact ⟨(List.mem_filter.mp hb).1, (List.mem_filter.mp hb).2⟩
  · intro b _ hext hb
    rw [(List.mem_filter.mp hb).2] at hext
    exact Bool.noConfusion hext

/-- Witness for C7: with an absent cache and four enumerated blobs, exactly
the three image-named blobs are submitted. -/
theorem cache_miss_filters_images_witness :
    (¬(false = true ∧ 0 < 0)) ∧
    ((preprocess_and_save_locally false 0
        ["a.JPG".toList, "b.txt".toList, "c.PnG".toList, "d.jpeg".toList]).submittedTasks
      = ["a.JPG".toList, "b.txt".toList, "c.PnG".toList, "d.jpeg".toList].filter
          hasImageExt ∧
    (∀ b ∈ (preprocess_and_save_locally false 0
        ["a.JPG".toList, "b.txt".toList, "c.PnG".toList, "d.jpeg".toList]).submittedTasks,
      b ∈ ["a.JPG".toList, "b.txt".toList, "c.PnG".toList, "d.jpeg".toList] ∧
        hasImageExt b = true) ∧
    (∀ b ∈ ["a.JPG".toList, "b.txt".toList, "c.PnG".toList, "d.jpeg".toList],
      hasImageExt b = false →
      b ∉ (preprocess_and_save_locally false 0
        ["a.JPG".toList, "b.txt".toList, "c.PnG".toList, "d.jpeg".toList]).submittedTasks)) :=
  ⟨by decide, cache_miss_filters_images false 0
    ["a.JPG".toList, "b.txt".toList, "c.PnG".toList, "d.jpeg".toList] (by decide)⟩

/-- A decoded source image, reduced to what the tiling loops read from it:
its width and height (src/app.py line 33). -/
structure ImageData where
  width : Nat
  height : Nat
  deriving DecidableEq

/-- `process_blob` (src/app.py lines 22-46): the whole download / decode /
tile / write body sits in one `try`; on any exception the worker returns the
string `Failed to process {blob_name}: {e}` (writing nothing further), and on
success it returns `Processed {blob_name}` having written one patch file per
crop box, numbered by `patch_num` from 0 upward. `fetchResult` stands for the
fallible download-and-decode step; the second component of the result lists
the indices of the patch files written. -/
def process_blob (blob_name : List Char)
    (fetchResult : Except (List Char) ImageData) (patch_size : Nat) :
    List Char × List Nat :=
  match fetchResult with
  | Except.error e =>
      ("Failed to process ".toList ++ blob_name ++ ": ".toList ++ e, [])
  | Except.ok img =>
      ("Processed ".toList ++ blob_name,
       List.range (patchBoxes img.width img.height patch_size).length)

/-- The worker pool of `preprocess_and_save_locally` (src/app.py lines
86-88): every submitted task is run through `process_blob`; results are
consumed without aborting on failures. -/
def runPool (tasks : List (List Char × Except (List Char) ImageData))
    (patch_size : Nat) : List (List Char × List Nat) :=
  tasks.map (fun t => process_blob t.1 t.2 patch_size)

/-- C8: every per-object exception is caught inside `process_blob` and
returned as a failure message with no patches written; the pool yields one
result per task, each task's outcome depends only on that task, so a failing
object never aborts the pool and every succeeding object still has its full
set of patches written. -/
theorem worker_errors_contained
    (tasks : List (List Char × Except (List Char) ImageData))
    (patch_size : Nat) :
    (runPool tasks patch_size).length = tasks.length ∧
    (∀ i : Nat, (runPool tasks patch_size)[i]? =
      Option.map
        (fun t : List Char × Except (List Char) ImageData =>
          process_blob t.1 t.2 patch_size)
        tasks[i]?) ∧
    (∀ blob_name e, process_blob blob_name (Except.error e) patch_size =
      ("Failed to process ".toList ++ blob_name ++ ": ".toList ++ e, [])) ∧
    (∀ blob_name img, process_blob blob_name (Except.ok img) patch_size =
      ("Processed ".toList ++ blob_name,
       List.range (patchBoxes img.width img.height patch_size).length)) := by
  refine ⟨List.length_map tasks _, ?_, fun _ _ => rfl, fun _ _ => rfl⟩
  intro i
  exact List.getElem?_map _ tasks i

/-- The spec's image-extension test read literally: the blob name carries an
image extension, i.e. ends with a final `.jpg`, `.jpeg` or `.png` component,
case-insensitively. Stated for comparison against `hasImageExt`, the test the
source actually performs (which requires no dot). -/
def specHasImageExtension (blob_name : List Char) : Bool :=
  let lowered := blob_name.map Char.toLower
  ".jpg".toList.isSuffixOf lowered ||
  ".jpeg".toList.isSuffixOf lowered ||
  ".png".toList.isSuffixOf lowered

/-- Counterexample for C7 as stated: the blob named `datajpg` has no image
extension (no dot-separated `jpg`/`jpeg`/`png` component), yet on a cache
miss the orchestrator submits it for processing, because line 81 of
src/app.py tests a bare suffix, not an extension. -/
theorem cache_miss_extension_counterexample :
    specHasImageExtension "datajpg".toList = false ∧
    "datajpg".toList ∈
      (preprocess_and_save_locally false 0 ["datajpg".toList]).submittedTasks ∧
    (preprocess_and_save_locally false 0 ["datajpg".toList]).submittedTasks ≠
      ["datajpg".toList].filter specHasImageExtension := by
  refine ⟨by decide, by decide, by decide⟩

/-- `len(dataset) == 0`: the empty-dataset guard of `main`
(src/app.py lines 169-171); when it holds, `main` prints an error and
returns before building the training loop. -/
def datasetGuardAborts (dataset_len : Nat) : Bool :=
  dataset_len == 0

/-- `len(dataloader)` for a `DataLoader` built with `drop_last=True`
(src/app.py lines 173-176): incomplete trailing batches are dropped, so the
number of batches per epoch is `⌊dataset_len / batch_size⌋`. This is the
denominator of `avg_loss = total_loss / len(dataloader)` (src/app.py
line 273). -/
def len_dataloader (dataset_len batch_size : Nat) : Nat :=
  dataset_len / batch_size

/-- C9: the empty-dataset guard only rejects a dataset of size 0, while
`drop_last=True` discards incomplete batches; for any dataset size between 1
and `batch_size - 1` training is therefore entered with zero batches per
epoch, and the mean-loss computation `total_loss / len(dataloader)` divides
by zero. -/
theorem small_dataset_zero_batches (dataset_len batch_size : Nat)
    (h1 : 1 ≤ dataset_len) (h2 : dataset_len < batch_size) :
    datasetGuardAborts dataset_len = false ∧
    len_dataloader dataset_len batch_size = 0 := by
  constructor
  · rw [datasetGuardAborts]
    simp only [beq_eq_false_iff_ne, ne_eq]
    omega
  · exact Nat.div_eq_of_lt h2

/-- Witness for C9 at the configured batch size 256: a single-patch dataset
passes the guard yet yields zero batches. -/
theorem small_dataset_zero_batches_witness :
    1 ≤ 1 ∧ 1 < 256 ∧
    (datasetGuardAborts 1 = false ∧ len_dataloader 1 256 = 0) :=
  ⟨by decide, by decide, small_dataset_zero_batches 1 256 (by decide) (by decide)⟩

end ResnetTraining
